import Mathlib

/-!
Shallow embedding of the Twilio ↔ OpenAI realtime voice bridge implemented in
`server.cjs` of this repository, together with theorems settling the frozen
claims about it.

Conventions of the embedding:
* JavaScript `Date.now()` timestamps are `Nat` milliseconds.
* JS `Map`s are association lists (`List (String × α)`); `Map.set` replaces in
  place, `Map.delete` removes the key.  The pair
  `handledToolCallIds : Set` / `handledToolCallOrder : Array` of the source is
  kept exactly in sync by the code (every mutation updates both), so it is
  modelled by the single insertion-ordered list `handled`.
* JS string truthiness: the empty string is falsy, which the guards below
  spell out as `≠ ""` / `= ""` checks.
* Host functionality that the repository calls but does not define
  (`fetch`/`postJson`, `Date.parse`, `Intl` time-zone queries, regular
  expression matching inside the pure helper functions) is abstracted as
  fields of a `Host` structure; every control-flow decision and every
  `throw` site of the repository's own code is embedded explicitly.
-/

namespace VoiceAgent

/-! ### Constants (server.cjs lines 1346-1355, 2221-2224, 2242-2243, 2299) -/

def RATE_LIMIT_WINDOW_MS : Nat := 60000
def RATE_LIMIT_MAX_REQUESTS : Nat := 60
def RATE_LIMIT_CIRCUIT_BREAKER : Nat := 120
def WS_MAX_CONNECTIONS_PER_IP : Nat := 5
def RECONNECT_COOLDOWN_MS : Nat := 60000
def WS_REJECTED_COOLDOWN_MS : Nat := 30000
def MAX_AUDIO_QUEUE_SIZE : Nat := 500
def MAX_HANDLED_TOOL_IDS : Nat := 100
def MAX_PENDING_FUNCTION_CALLS : Nat := 50
def AUDIO_AGGREGATION_MAX_CHUNKS : Nat := 10
def BACKPRESSURE_LIMIT : Nat := 64 * 1024

/-! ### Rate limiting (`checkRateLimit`, server.cjs lines 1412-1448)

`rateLimitStore` maps an ip to `{ count, windowStart, blocked }`; the claims
concern a single address, so we model the store slice for one ip as an
`Option RateEntry` (`none` = no entry yet). -/

structure RateEntry where
  count : Nat
  windowStart : Nat
  blocked : Bool
deriving DecidableEq, Repr

inductive RateResult
  | allowed
  | rate_limit
  | circuit_breaker
deriving DecidableEq, Repr

/-- `checkRateLimit(ip)` acting on the store entry for that ip. -/
def checkRateLimit (now : Nat) (st : Option RateEntry) : RateResult × RateEntry :=
  let entry := st.getD { count := 0, windowStart := now, blocked := false }
  let entry :=
    if RATE_LIMIT_WINDOW_MS < now - entry.windowStart then
      { count := 0, windowStart := now, blocked := false }
    else entry
  if entry.blocked then
    (.circuit_breaker, entry)
  else
    let entry := { entry with count := entry.count + 1 }
    if RATE_LIMIT_CIRCUIT_BREAKER < entry.count then
      (.circuit_breaker, { entry with blocked := true })
    else if RATE_LIMIT_MAX_REQUESTS < entry.count then
      (.rate_limit, entry)
    else
      (.allowed, entry)

/-- Runs `checkRateLimit` once per timestamp in `ts`, threading the store
entry, and collects the results in order. -/
def runRateChecks (st : Option RateEntry) : List Nat → List RateResult × Option RateEntry
  | [] => ([], st)
  | t :: ts =>
    let (r, e) := checkRateLimit t st
    let (rs, e') := runRateChecks (some e) ts
    (r :: rs, e')

/-! ### Reconnect cooldowns and the upgrade gate
(server.cjs lines 1450-1506 and 2157-2216) -/

structure GateState where
  /-- `ipRejectionCooldowns : Map ip → lastRejectionTimestamp`. -/
  ipRejectionCooldowns : List (String × Nat)
  /-- `reconnectCooldowns : Map "ip:streamSid" → lastAttemptTimestamp`
  (the key is the template string `ip ++ ":" ++ streamSid`). -/
  reconnectCooldowns : List (String × Nat)
  /-- `wsConnectionsByIp : Map ip → Set ws`; only the set's size matters for
  admission, so we store the size. -/
  wsConnections : List (String × Nat)
  /-- `metricsWsRejections` counter. -/
  metricsWsRejections : Nat
deriving Repr

/-- JS `Map.set`: replace in place if the key exists, else append. -/
def mapSet {α : Type} (l : List (String × α)) (k : String) (v : α) : List (String × α) :=
  match l with
  | [] => [(k, v)]
  | (k', v') :: rest => if k' = k then (k, v) :: rest else (k', v') :: mapSet rest k v

/-- JS `Map.delete` (keys are unique in every map built by the code). -/
def mapDelete {α : Type} (l : List (String × α)) (k : String) : List (String × α) :=
  l.filter (fun p => p.1 ≠ k)

inductive CooldownReason
  | ip_rejection_cooldown
  | stream_cooldown
deriving DecidableEq, Repr

/-- `checkReconnectCooldown(ip, streamSid)`: `none` means allowed, `some r`
means rejected with reason `r`. -/
def checkReconnectCooldown (g : GateState) (ip : String) (streamSid : Option String)
    (now : Nat) : Option CooldownReason :=
  match g.ipRejectionCooldowns.lookup ip with
  | some t =>
    if now - t < WS_REJECTED_COOLDOWN_MS then some .ip_rejection_cooldown
    else checkStreamCooldown g ip streamSid now
  | none => checkStreamCooldown g ip streamSid now
where
  checkStreamCooldown (g : GateState) (ip : String) (streamSid : Option String)
      (now : Nat) : Option CooldownReason :=
    match streamSid with
    | some sid =>
      if sid = "" then none
      else
        match g.reconnectCooldowns.lookup (ip ++ ":" ++ sid) with
        | some last => if now - last < RECONNECT_COOLDOWN_MS then some .stream_cooldown else none
        | none => none
    | none => none

/-- `trackConnectionAttempt(ip, streamSid)`. -/
def trackConnectionAttempt (g : GateState) (ip : String) (streamSid : Option String)
    (now : Nat) : GateState :=
  match streamSid with
  | some sid =>
    if sid = "" then g
    else { g with reconnectCooldowns := mapSet g.reconnectCooldowns (ip ++ ":" ++ sid) now }
  | none => g

/-- `trackRejection(ip)`. -/
def trackRejection (g : GateState) (ip : String) (now : Nat) : GateState :=
  { g with
    metricsWsRejections := g.metricsWsRejections + 1
    ipRejectionCooldowns := mapSet g.ipRejectionCooldowns ip now }

/-- `canOpenWsConnection(ip)`. -/
def canOpenWsConnection (g : GateState) (ip : String) : Bool :=
  match g.wsConnections.lookup ip with
  | some n => n < WS_MAX_CONNECTIONS_PER_IP
  | none => true

/-- `trackWsConnection(ip, ws)` (adding a fresh socket object to the set). -/
def trackWsConnection (g : GateState) (ip : String) : GateState :=
  { g with wsConnections := mapSet g.wsConnections ip ((g.wsConnections.lookup ip).getD 0 + 1) }

inductive UpgradeResult
  | destroyed
  | accepted
deriving DecidableEq, Repr

/-- The `server.on('upgrade')` handler (lines 2157-2216): path check, ip-level
cooldown check (`checkReconnectCooldown(clientIp, null)`), connection cap,
then strict stream-secret validation; only the surviving attempts reach
`wss.handleUpgrade`, which is the `accepted` outcome.  `secret` is
`process.env.STREAM_SECRET` (`none` = unset). -/
def handleUpgrade (secret : Option String) (g : GateState) (path : String)
    (token : Option String) (ip : String) (now : Nat) : UpgradeResult × GateState :=
  if path ≠ "/twilio/stream" then (.destroyed, g)
  else if (checkReconnectCooldown g ip none now).isSome then
    (.destroyed, trackRejection g ip now)
  else if ¬ canOpenWsConnection g ip then
    (.destroyed, trackRejection g ip now)
  else
    match secret with
    | some expected =>
      -- `if (expected)`: an empty STREAM_SECRET is falsy, i.e. dev mode
      if expected = "" then (.accepted, trackWsConnection g ip)
      else
        match token with
        | none => (.destroyed, trackRejection g ip now)
        | some t =>
          if t = "" then (.destroyed, trackRejection g ip now)
          else if t ≠ expected then (.destroyed, trackRejection g ip now)
          else (.accepted, trackWsConnection g ip)
    | none => (.accepted, trackWsConnection g ip)

/-! ### JSON values

`JVal` models the JavaScript/JSON values flowing through tool arguments and
results.  Numeric literals of the source (confidences, durations) are embedded
as rationals. -/

inductive JVal
  | null
  | bool (b : Bool)
  | num (q : ℚ)
  | str (s : String)
  | arr (elems : List JVal)
  | obj (fields : List (String × JVal))

/-- JS property access `v?.k` on a parsed-JSON value. -/
def JVal.getField : JVal → String → Option JVal
  | .obj fields, k => fields.lookup k
  | _, _ => none

/-- JS truthiness of a JSON value (`undefined` is the `Option.none` case at
use sites). -/
def jsTruthy : JVal → Bool
  | .null => false
  | .bool b => b
  | .num q => q ≠ 0
  | .str s => s ≠ ""
  | .arr _ => true
  | .obj _ => true

/-- `x || y` where `x` is a possibly-undefined property. -/
def jsOr (x : Option JVal) (y : JVal) : JVal :=
  match x with
  | some v => if jsTruthy v then v else y
  | none => y

/-- `String(v)` on the JSON values that actually reach it in the code
(strings, numbers, booleans, null); container stringification is not relied
on by any claim and is approximated by `toString` of the representation. -/
def jsString : JVal → String
  | .str s => s
  | .num q => toString q
  | .bool b => if b then "true" else "false"
  | .null => "null"
  | .arr _ => ""
  | .obj _ => "[object Object]"

/-- Truthiness of an optional string (JS: `undefined` and `""` are falsy). -/
def strTruthy : Option String → Bool
  | some x => x ≠ ""
  | none => false

/-! ### Per-session state (the `wss.on('connection')` closure, lines 2218-2984)

All mutable variables of one session's closure are collected into
`SessionState`; the lists `sentToTwilio`/`sentToOpenAI` record the payloads
actually written to each socket so that send/drop behaviour is observable. -/

/-- Entry of `pendingFunctionCalls`: `{ name, arguments }`. -/
structure FnItem where
  name : String
  arguments : String
deriving DecidableEq, Repr

/-- Messages the session writes to the OpenAI socket (`sendToOpenAI`). -/
inductive OutMsg
  | inputAudioAppend (audio : String)
  | functionCallOutput (callId : String) (output : JVal)

/-- `callMemory` (lines 2250-2255). -/
structure CallMemory where
  caller_name : Option JVal
  project_type : Option JVal
  preferred_time : Option JVal
  notes : List String

@[ext]
structure SessionState where
  clientIp : String
  streamSid : Option String
  agent : String
  /-- the Twilio websocket is open (readyState OPEN) -/
  twilioOpen : Bool
  /-- `openaiWs` is non-null and open -/
  openaiOpen : Bool
  openaiStarted : Bool
  /-- this socket is recorded in `wsConnectionsByIp` -/
  connTracked : Bool
  /-- `ws.bufferedAmount` of the Twilio socket (observed from the transport) -/
  bufferedAmount : Nat
  /-- `audioAggregationBuffer` -/
  outBuffer : List String
  /-- `audioAggregationTimer` is armed -/
  outTimer : Bool
  /-- `inboundAudioBuffer` -/
  inBuffer : List String
  /-- `inboundAggregationTimer` is armed -/
  inTimer : Bool
  sentToTwilio : List String
  sentToOpenAI : List OutMsg
  /-- `pendingFunctionCalls : Map call_id → { name, arguments }` -/
  pending : List (String × FnItem)
  /-- `handledToolCallIds` / `handledToolCallOrder` (kept in sync by the code;
  oldest first) -/
  handled : List String
  /-- record of the invocations handed to the tool executor:
  `(call_id, { name, arguments })`, in dispatch order -/
  dispatched : List (String × FnItem)
  callMemory : CallMemory

/-- A freshly connected session (`wss.on('connection')` locals). -/
def sessionInit (ip : String) : SessionState where
  clientIp := ip
  streamSid := none
  agent := "customer_service"
  twilioOpen := true
  openaiOpen := false
  openaiStarted := false
  connTracked := true
  bufferedAmount := 0
  outBuffer := []
  outTimer := false
  inBuffer := []
  inTimer := false
  sentToTwilio := []
  sentToOpenAI := []
  pending := []
  handled := []
  dispatched := []
  callMemory := ⟨none, none, none, []⟩

/-! ### Outbound audio: `sendToTwilio`, `flushAudioAggregation`, `queueAudio`
(lines 2293-2352) -/

def sendToTwilio (s : SessionState) (payload : String) : SessionState :=
  if s.twilioOpen ∧ strTruthy s.streamSid then
    if BACKPRESSURE_LIMIT < s.bufferedAmount then s
    else { s with sentToTwilio := s.sentToTwilio ++ [payload] }
  else s

def flushAudioAggregation (s : SessionState) : SessionState :=
  let s := { s with outTimer := false }
  if s.outBuffer = [] then s
  else
    let combined := String.join s.outBuffer
    sendToTwilio { s with outBuffer := [] } combined

def queueAudio (s : SessionState) (payload : String) : SessionState :=
  if MAX_AUDIO_QUEUE_SIZE ≤ s.outBuffer.length then s
  else
    let s := { s with outBuffer := s.outBuffer ++ [payload] }
    if AUDIO_AGGREGATION_MAX_CHUNKS ≤ s.outBuffer.length then flushAudioAggregation s
    else if ¬ s.outTimer then { s with outTimer := true } else s

/-! ### Inbound audio and the OpenAI-bound sender
(`sendToOpenAI` lines 2279-2287, inbound aggregation lines 2853-2887) -/

def sendToOpenAI (s : SessionState) (m : OutMsg) : SessionState :=
  if s.openaiOpen then { s with sentToOpenAI := s.sentToOpenAI ++ [m] } else s

def flushInboundAudio (s : SessionState) : SessionState :=
  let s := { s with inTimer := false }
  if s.inBuffer = [] then s
  else
    let combined := String.join s.inBuffer
    sendToOpenAI { s with inBuffer := [] } (.inputAudioAppend combined)

def queueInboundAudio (s : SessionState) (payload : String) : SessionState :=
  let s := { s with inBuffer := s.inBuffer ++ [payload] }
  if 10 ≤ s.inBuffer.length then flushInboundAudio s
  else if ¬ s.inTimer then { s with inTimer := true } else s

/-! ### Tool-call deduplication (`addHandledToolCallId`, lines 2265-2277) -/

/-- The `while (handledToolCallOrder.length >= MAX_HANDLED_TOOL_IDS)` loop:
as long as the list is at or above the bound, shift the oldest id off the
front (and remove it from the set). -/
def evictOldest : List String → List String
  | [] => []
  | x :: rest =>
    if MAX_HANDLED_TOOL_IDS ≤ (x :: rest).length then evictOldest rest
    else x :: rest

/-- `addHandledToolCallId(callId)`: `false` when already present; otherwise
evict down below the bound, insert, and return `true`. -/
def addHandledToolCallId (handled : List String) (callId : String) :
    Bool × List String :=
  if callId ∈ handled then (false, handled)
  else (true, evictOldest handled ++ [callId])

/-! ### OpenAI events and the tool-call aggregation state machine
(`openaiWs.on('message')`, lines 2428-2839) -/

/-- One item of `response.done`'s `response.output` array. -/
structure RespItem where
  isFunctionCall : Bool
  call_id : String
  name : String
  arguments : String

/-- The OpenAI realtime events the message handler reacts to.  String
arguments already absorb the `|| ''` defaulting of the source.  All
log-only event types are collapsed into `other`. -/
inductive OAIEvent
  | audioDelta (delta : String)
  | argsDelta (callId : String) (delta : String)
  | itemAdded (callId : String) (name : String)
  | itemDone (callId : String) (name : String) (arguments : String)
  | argsDone (callId : String) (name : String) (arguments : String)
  | responseDone (output : List RespItem)
  | other

/-- The synchronous prefix of `maybeHandleToolCall` (lines 2527-2561):
extract `(callId, fnName, argsStr)` from the triggering event — done by the
caller here — guard on truthiness, delete the pending entry, dedupe via
`addHandledToolCallId`, and hand the invocation to the executor (recorded in
`dispatched`; execution itself is asynchronous, see `handleToolResult`). -/
def dispatchCall (s : SessionState) (callId fnName argsStr : String) : SessionState :=
  if fnName = "" ∨ callId = "" then s
  else
    let s := { s with pending := mapDelete s.pending callId }
    match addHandledToolCallId s.handled callId with
    | (false, h) => { s with handled := h }
    | (true, h) =>
      { s with handled := h, dispatched := s.dispatched ++ [(callId, ⟨fnName, argsStr⟩)] }

/-- One step of the OpenAI message handler. -/
def processEvent (s : SessionState) (ev : OAIEvent) : SessionState :=
  match ev with
  | .audioDelta delta =>
    if delta = "" then s else queueAudio s delta
  | .argsDelta cid delta =>
    if cid = "" then s
    else
      match s.pending.lookup cid with
      | some p =>
        { s with pending := mapSet s.pending cid { p with arguments := p.arguments ++ delta } }
      | none =>
        if MAX_PENDING_FUNCTION_CALLS ≤ s.pending.length then s
        else { s with pending := mapSet s.pending cid ⟨"", delta⟩ }
  | .itemAdded cid name =>
    if cid = "" then s
    else
      match s.pending.lookup cid with
      | some p => { s with pending := mapSet s.pending cid { p with name := name } }
      | none =>
        if MAX_PENDING_FUNCTION_CALLS ≤ s.pending.length then s
        else { s with pending := mapSet s.pending cid ⟨name, ""⟩ }
  | .itemDone cid name args =>
    -- line 2499: the complete item replaces the pending entry wholesale …
    let s := if cid ≠ "" then { s with pending := mapSet s.pending cid ⟨name, args⟩ } else s
    -- … and (line 2836) triggers the dispatcher with the event's own payload
    dispatchCall s cid name args
  | .argsDone cid name args =>
    -- line 2833: triggers the dispatcher with `ev.call_id`/`ev.name`/`ev.arguments`
    dispatchCall s cid name args
  | .responseDone items =>
    { s with
      pending := items.foldl
        (fun p it =>
          if it.isFunctionCall ∧ it.call_id ≠ "" then
            mapSet p it.call_id ⟨it.name, it.arguments⟩
          else p)
        s.pending }
  | .other => s

def processEvents (s : SessionState) (evs : List OAIEvent) : SessionState :=
  evs.foldl processEvent s

/-! ### Session teardown (lines 2354-2362, 2845-2848, 2953-2979) -/

/-- `closeOpenAI()`: close and null the OpenAI socket, flush remaining
outbound audio, clear the aggregation buffer. -/
def closeOpenAI (s : SessionState) : SessionState :=
  let s := { s with openaiOpen := false }
  let s := flushAudioAggregation s
  { s with outBuffer := [] }

/-- The `ws.on('close')` handler (lines 2953-2979); it runs after the Twilio
socket has closed.  `connTracked := false` is `untrackWsConnection`. -/
def onTwilioCloseEvent (s : SessionState) : SessionState :=
  let s := { s with twilioOpen := false }
  let s := flushInboundAudio s
  let s := closeOpenAI s
  let s := { s with outTimer := false, inTimer := false, connTracked := false }
  { s with outBuffer := [], inBuffer := [], handled := [], pending := [] }

/-- The `openaiWs.on('close')` handler (lines 2845-2848) only logs; the state
change is the socket itself no longer being open. -/
def onOpenAICloseEvent (s : SessionState) : SessionState :=
  { s with openaiOpen := false }

inductive CloseEvent
  | twilioClosed
  | openaiClosed

/-- Process a sequence of leg-close events; the second component counts how
many times the full teardown sequence (the `ws.on('close')` body) ran. -/
def processCloses (s : SessionState) : List CloseEvent → SessionState × Nat
  | [] => (s, 0)
  | .twilioClosed :: es =>
    let (s', n) := processCloses (onTwilioCloseEvent s) es
    (s', n + 1)
  | .openaiClosed :: es => processCloses (onOpenAICloseEvent s) es

/-- The fully-torn-down condition claimed for a closed session. -/
def isCleaned (s : SessionState) : Prop :=
  s.twilioOpen = false ∧ s.openaiOpen = false ∧
  s.outTimer = false ∧ s.inTimer = false ∧
  s.outBuffer = [] ∧ s.inBuffer = [] ∧
  s.pending = [] ∧ s.handled = [] ∧ s.connTracked = false

/-! ### The telephony `start` event (lines 2906-2930) -/

/-- `normalizeAgentKey` (lines 1662-1667). -/
def normalizeAgentKey (raw : Option String) : String :=
  let v := (raw.getD "").toLower.trim
  if v = "assistant" ∨ v = "pa" ∨ v = "personal_assistant" then "assistant"
  else if v = "outbound" ∨ v = "sales" then "outbound"
  else "customer_service"

/-- `startOpenAI()` (lines 2364-2384): guarded by `openaiStarted`; the socket
connect itself is asynchronous. -/
def startOpenAI (s : SessionState) : SessionState :=
  if s.openaiStarted then s else { s with openaiStarted := true }

inductive StartOutcome
  | proceeded
  | rejected
deriving DecidableEq, Repr

/-- The `msg.event === 'start'` branch of `ws.on('message')`:
record `streamSid`, track the connection attempt, read the custom
parameters, validate the in-band token (`expected && cp.token &&
cp.token !== expected` closes the socket with a rejection cooldown), and
otherwise start the OpenAI leg. -/
def handleStartEvent (secret : Option String) (g : GateState) (s : SessionState)
    (sid : Option String) (cpAgent cpToken : Option String) (now : Nat) :
    StartOutcome × GateState × SessionState :=
  let s := { s with streamSid := sid }
  let g :=
    if s.clientIp ≠ "" ∧ strTruthy sid then trackConnectionAttempt g s.clientIp sid now
    else g
  let s :=
    if strTruthy cpAgent then { s with agent := normalizeAgentKey cpAgent } else s
  match secret, cpToken with
  | some sec, some t =>
    -- `expected && cp.token && cp.token !== expected` (all JS-truthy checks)
    if sec ≠ "" ∧ t ≠ "" ∧ t ≠ sec then
      (.rejected,
       if s.clientIp ≠ "" then trackRejection g s.clientIp now else g,
       { s with twilioOpen := false })
    else (.proceeded, g, startOpenAI s)
  | _, _ => (.proceeded, g, startOpenAI s)

/-! ### The tool executor (`executeTool`, lines 2565-2798, and its boundary
wrapper, lines 2800-2818)

Host functionality the repository calls but does not define — `fetch`
(via `postJson`), `Date` methods, `Intl` time-zone queries, `JSON.parse`,
and the regex-based pure helpers of `server.cjs` (`inferTimeZone`,
`parseWeekdayIndex`, `parseTimeOfDay`, `getZonedParts`, `zonedToUtcIso`,
`normalizeEmailAddress`) — is abstracted as fields of `Host`; every branch,
default, and `throw` site of `executeTool` itself is embedded explicitly.
JavaScript exceptions are `Except.error` carrying the error message. -/

/-- Result of `getZonedParts` (lines 1677-1700). -/
structure ZonedParts where
  year : Int
  month : Int
  day : Int
  hour : Int
  minute : Int
  second : Int
  weekday : String

structure Host where
  /-- `postJson(url, body)`: parsed JSON on HTTP success, throws otherwise
  (lines 1529-1541) -/
  postJson : String → JVal → Except String JVal
  /-- `JSON.parse`; `none` = parse exception (`safeJsonParse`, lines 1551-1557) -/
  jsonParse : String → Option JVal
  /-- `Date.now()` -/
  nowMs : Nat
  /-- the server port used in the internal API URLs -/
  port : Nat
  /-- `Date.parse` applied to the raw `toolArgs?.start` value; `none` = NaN -/
  dateParse : Option JVal → Option Int
  /-- `Number(v)`; `none` = NaN or not finite -/
  toNumber : JVal → Option ℚ
  /-- `new Date(ms).toISOString()` -/
  isoOfMs : ℚ → String
  /-- `String(phone).replace(/\\D/g, '')` of `lookup_customer` (line 2601) -/
  stripRegexD : String → String
  /-- `inferTimeZone({ explicitTz, text })` (lines 1762-1774) -/
  inferTimeZone : Option JVal → String → String
  /-- `parseWeekdayIndex` (lines 1720-1745); `none` = null -/
  parseWeekdayIndex : String → Option Int
  /-- `parseTimeOfDay` (lines 1747-1760); `(hour, minute)` -/
  parseTimeOfDay : String → Option (Int × Int)
  /-- `getZonedParts(date, timeZone)` -/
  getZonedParts : Int → String → ZonedParts
  /-- `Date.UTC(year, month0, day, hour, minute, second)` -/
  dateUTC : Int → Int → Int → Int → Int → Int → Int
  /-- `getUTCFullYear`, `getUTCMonth() + 1`, `getUTCDate` of a ms timestamp -/
  utcYMD : Int → Int × Int × Int
  /-- `zonedToUtcIso({year, month, day, hour, minute}, timeZone)` (lines 1708-1718) -/
  zonedToUtcIso : Int → Int → Int → Int → Int → String → String
  /-- `normalizeEmailAddress` (lines 1776-1799) -/
  normalizeEmailAddress : JVal → String

def calendarUrl (h : Host) : String :=
  "http://127.0.0.1:" ++ toString h.port ++ "/api/google-calendar"

def gmailUrl (h : Host) : String :=
  "http://127.0.0.1:" ++ toString h.port ++ "/api/gmail"

/-- `String.prototype.includes` (JS substring test). -/
def containsSub (s t : String) : Bool := (s.splitOn t).length ≠ 1

/-- `s.slice(-1)`. -/
def lastCharStr (s : String) : String := String.mk (s.data.drop (s.data.length - 1))

/-- A JSON object field that is dropped when the value is `undefined`
(`JSON.stringify` omits `undefined`-valued properties). -/
def optField (k : String) (v : Option JVal) : List (String × JVal) :=
  match v with
  | some x => [(k, x)]
  | none => []

/-- `a || b` where both sides are possibly-undefined property reads. -/
def jsOrUndef (a b : Option JVal) : Option JVal :=
  match a with
  | some v => if jsTruthy v then some v else b
  | none => b

/-- `v ?? d` (nullish coalescing on a possibly-undefined property). -/
def nullishDefault (v : Option JVal) (d : JVal) : JVal :=
  match v with
  | some .null => d
  | some x => x
  | none => d

/-- Object spread `{ base…, ...v }` (later keys override; non-objects
contribute no enumerable keys relevant here). -/
def jsSpread (base : List (String × JVal)) (v : JVal) : JVal :=
  match v with
  | .obj fields => .obj (fields.foldl (fun acc kv => mapSet acc kv.1 kv.2) base)
  | _ => .obj base

/-- Template-literal rendering of a possibly-undefined value. -/
def jsDisplay : Option JVal → String
  | none => "undefined"
  | some v => jsString v

/-- The weekday map `{ Sun: 0, …, Sat: 6 }` with `?? 0` applied by the caller. -/
def weekdayLookup (w : String) : Option Int :=
  ([("Sun", 0), ("Mon", 1), ("Tue", 2), ("Wed", 3),
    ("Thu", 4), ("Fri", 5), ("Sat", 6)] : List (String × Int)).lookup w

/-- Serialization of `callMemory` as it appears in `update_call_memory`'s
result (unassigned fields were initialized to `null`). -/
def CallMemory.toJVal (m : CallMemory) : JVal :=
  .obj [("caller_name", m.caller_name.getD .null),
        ("project_type", m.project_type.getD .null),
        ("preferred_time", m.preferred_time.getD .null),
        ("notes", .arr (m.notes.map .str))]

/-- The `calendar_check_time` body (lines 2631-2661), shared with
`calendar_check_time_nl` exactly as the source reuses it (line 2702). -/
def execCalendarCheckTime (h : Host) (args : JVal) : Except String JVal := do
  let startRaw := args.getField "start"
  let tz := args.getField "timezone"
  match h.dateParse startRaw with
  | none => throw ("Invalid datetime: " ++ jsDisplay startRaw)
  | some startMs =>
    let duration? :=
      match args.getField "duration_minutes" with
      | some v => h.toNumber v
      | none => none
    match duration? with
    | none => throw "duration_minutes must be > 0"
    | some duration =>
      if duration ≤ 0 then throw "duration_minutes must be > 0"
      else do
        let endMs : ℚ := (startMs : ℚ) + duration * 60000
        let startIso := h.isoOfMs (startMs : ℚ)
        let slots ← h.postJson (calendarUrl h)
          (.obj ([("action", .str "find_slots"),
                  ("window_start", .str startIso),
                  ("window_end", .str (h.isoOfMs endMs))]
                 ++ optField "timezone" tz
                 ++ [("duration_minutes", .num duration),
                     ("max_results", .num 3)]))
        let available :=
          match slots.getField "slots" with
          | some (.arr l) =>
            l.any (fun sl =>
              match sl.getField "start" with
              | some (.str t) => t = startIso
              | _ => false)
          | _ => false
        return .obj
          [("requested",
             .obj ([("start", .str startIso), ("end", .str (h.isoOfMs endMs))]
                   ++ optField "timezone" tz
                   ++ [("duration_minutes", .num duration)])),
           ("available", .bool available),
           ("alternatives", jsOr (slots.getField "slots") (.arr []))]

/-- `executeTool(name, toolArgs)` (lines 2565-2798); threads `callMemory`
explicitly (only `update_call_memory` mutates it, and that branch cannot
throw). -/
def executeTool (h : Host) (mem : CallMemory) (name : String) (args : JVal) :
    Except String (JVal × CallMemory) := do
  if name = "detect_intent" then
    let text := (jsString (jsOr (args.getField "utterance") (.str ""))).toLower
    let intentConf : String × ℚ :=
      if containsSub text "book" ∨ containsSub text "schedule" ∨ containsSub text "call" then
        ("booking_request", 0.9)
      else if containsSub text "issue" ∨ containsSub text "problem" ∨
          containsSub text "bug" ∨ containsSub text "error" then
        ("support_question", 0.9)
      else if text.startsWith "what " ∨ text.startsWith "how " ∨
          containsSub text "explain" ∨ containsSub text "information" then
        ("general_info", 0.8)
      else ("other", 0.6)
    let entities : List (String × JVal) :=
      if containsSub text "tomorrow" then [("time_reference", .str "tomorrow")]
      else if containsSub text "today" then [("time_reference", .str "today")]
      else if containsSub text "next week" then [("time_reference", .str "next_week")]
      else []
    return (.obj ([("intent", .str intentConf.1), ("confidence", .num intentConf.2)]
                  ++ (if entities.length ≠ 0 then [("entities", JVal.obj entities)] else [])),
            mem)
  else if name = "update_call_memory" then
    let mem := match args.getField "caller_name" with
      | some v => { mem with caller_name := some v }
      | none => mem
    let mem := match args.getField "project_type" with
      | some v => { mem with project_type := some v }
      | none => mem
    let mem := match args.getField "preferred_time" with
      | some v => { mem with preferred_time := some v }
      | none => mem
    let mem := match args.getField "note" with
      | some v => if jsTruthy v then { mem with notes := mem.notes ++ [jsString v] } else mem
      | none => mem
    return (.obj [("success", .bool true), ("memory", mem.toJVal)], mem)
  else if name = "lookup_customer" then
    let phone := jsOr (args.getField "phone_number") (.str "")
    let email := jsOr (args.getField "email") (.str "")
    let mockExists :=
      (jsTruthy phone ∨ jsTruthy email) ∧
      ((jsTruthy phone ∧ lastCharStr (h.stripRegexD (jsString phone)) = "2") ∨
       (jsTruthy email ∧ containsSub (jsString email).toLower "vip"))
    if mockExists then
      return (.obj [("exists", .bool true),
                    ("customer_id", .str "CUST-EXAMPLE-001"),
                    ("name", .str "Alex Example"),
                    ("last_project", .str "AI voice agent for property lead qualification"),
                    ("is_vip", .bool true)], mem)
    else
      return (.obj [("exists", .bool false)], mem)
  else if name = "request_callback" then
    return (.obj [("success", .bool true),
                  ("ticket_id", .str ("CBK-" ++ toString h.nowMs)),
                  ("normalized_urgency", jsOr (args.getField "urgency") (.str "normal"))], mem)
  else if name = "escalate_to_human" then
    return (.obj ([("success", .bool true), ("routed_to", .str "human_operator")]
                  ++ optField "reason" (args.getField "reason")), mem)
  else if name = "send_followup_sms" then
    return (.obj [("success", .bool true), ("provider", .str "mock")], mem)
  else if name = "calendar_find_slots" then
    let r ← h.postJson (calendarUrl h) (jsSpread [("action", .str "find_slots")] args)
    return (r, mem)
  else if name = "calendar_check_time" then
    let r ← execCalendarCheckTime h args
    return (r, mem)
  else if name = "calendar_check_time_nl" then
    let whenStr := jsString (jsOr (args.getField "when")
      (jsOr (args.getField "time") (jsOr (args.getField "datetime") (.str ""))))
    let tz := h.inferTimeZone (args.getField "timezone") whenStr
    let duration : ℚ :=
      match h.toNumber (jsOr (args.getField "duration_minutes")
          (jsOr (args.getField "duration") (.num 30))) with
      | some d => if d ≤ 0 then 30 else d
      | none => 30
    match h.parseWeekdayIndex whenStr, h.parseTimeOfDay whenStr with
    | some weekdayIdx, some tod =>
      let zp := h.getZonedParts (h.nowMs : Int) tz
      let curW := (weekdayLookup zp.weekday).getD 0
      let daysUntil := (weekdayIdx - curW + 7) % 7
      let daysUntil :=
        if daysUntil = 0 then
          let curMinutes := zp.hour * 60 + zp.minute
          let targetMinutes := tod.1 * 60 + tod.2
          if targetMinutes ≤ curMinutes then 7 else daysUntil
        else daysUntil
      let baseUtcMid := h.dateUTC zp.year (zp.month - 1) zp.day 0 0 0
      let targetUtcMid := baseUtcMid + daysUntil * 86400000
      let tymd := h.utcYMD targetUtcMid
      let startIso := h.zonedToUtcIso tymd.1 tymd.2.1 tymd.2.2 tod.1 tod.2 tz
      let r ← execCalendarCheckTime h
        (.obj [("start", .str startIso), ("timezone", .str tz),
               ("duration_minutes", .num duration)])
      return (r, mem)
    | _, _ =>
      throw "Could not parse `when`. Please include weekday + time like \"Friday 4pm\"."
  else if name = "calendar_create_event" then
    let r ← h.postJson (calendarUrl h) (jsSpread [("action", .str "create_event")] args)
    return (r, mem)
  else if name = "calendar_update_event" then
    let r ← h.postJson (calendarUrl h) (jsSpread [("action", .str "update_event")] args)
    return (r, mem)
  else if name = "email_search" then
    let r ← h.postJson (gmailUrl h)
      (.obj ([("action", .str "search")]
             ++ optField "q" (args.getField "q")
             ++ optField "max_results" (args.getField "max_results")))
    return (r, mem)
  else if name = "email_get" then
    match jsOrUndef (args.getField "message_id") (args.getField "id") with
    | some mid =>
      if ¬ jsTruthy mid then throw "message_id (or id) is required"
      else do
        let r ← h.postJson (gmailUrl h)
          (.obj [("action", .str "get"), ("message_id", mid),
                 ("format", nullishDefault (args.getField "format") (.str "metadata"))])
        return (r, mem)
    | none => throw "message_id (or id) is required"
  else if name = "email_get_latest" then
    let format := nullishDefault (args.getField "format") (.str "metadata")
    let search ← h.postJson (gmailUrl h)
      (.obj [("action", .str "search"), ("q", .str "newer_than:30d"), ("max_results", .num 5)])
    let first : Option JVal :=
      match search.getField "messages" with
      | some (.arr (x :: _)) => some x
      | _ => none
    let mid? : Option JVal :=
      match first with
      | some v => v.getField "id"
      | none => none
    match mid? with
    | some mid =>
      if ¬ jsTruthy mid then throw "No recent emails found (search returned empty)."
      else do
        let r ← h.postJson (gmailUrl h)
          (.obj [("action", .str "get"), ("message_id", mid), ("format", format)])
        return (r, mem)
    | none => throw "No recent emails found (search returned empty)."
  else if name = "email_draft_create" then
    let rawTo := jsOrUndef (args.getField "to") (jsOrUndef (args.getField "recipient")
      (jsOrUndef (args.getField "email") (args.getField "address")))
    let normalizedTo := h.normalizeEmailAddress (rawTo.getD .null)
    if normalizedTo = "" then
      throw "Invalid email address. Please provide something like name@example.com"
    else do
      let r ← h.postJson (gmailUrl h)
        (.obj ([("action", .str "draft_create"), ("to", .str normalizedTo)]
               ++ optField "subject" (args.getField "subject")
               ++ optField "body_text" (args.getField "body_text")
               ++ optField "thread_id" (args.getField "thread_id")))
      return (r, mem)
  else if name = "email_send_draft" then
    let r ← h.postJson (gmailUrl h)
      (.obj ([("action", .str "send_draft")] ++ optField "draft_id" (args.getField "draft_id")))
    return (r, mem)
  else if name = "email_send" then
    let rawTo := jsOrUndef (args.getField "to") (jsOrUndef (args.getField "recipient")
      (jsOrUndef (args.getField "email") (args.getField "address")))
    let normalizedTo := h.normalizeEmailAddress (rawTo.getD .null)
    if normalizedTo = "" then
      throw "Invalid email address. Please provide something like name@example.com"
    else do
      let draft ← h.postJson (gmailUrl h)
        (.obj ([("action", .str "draft_create"), ("to", .str normalizedTo)]
               ++ optField "subject" (args.getField "subject")
               ++ optField "body_text" (args.getField "body_text")
               ++ optField "thread_id" (args.getField "thread_id")))
      let draftId? := jsOrUndef
        (match draft.getField "draft" with
         | some d => d.getField "id"
         | none => none)
        (draft.getField "id")
      match draftId? with
      | some draftId =>
        if ¬ jsTruthy draftId then throw "Failed to create draft"
        else do
          let sent ← h.postJson (gmailUrl h)
            (.obj [("action", .str "send_draft"), ("draft_id", draftId)])
          return (.obj ([("success", .bool true)]
                        ++ optField "message_id" (sent.getField "id")
                        ++ [("to", .str normalizedTo)]
                        ++ optField "subject" (args.getField "subject")), mem)
      | none => throw "Failed to create draft"
  else
    throw ("Unknown tool: " ++ name)

/-- The `try { result = await executeTool(...) } catch (err) { result =
{ error } }` boundary (lines 2800-2808): an `Except.error` becomes the
structured payload `{ error: message }`; `logTool` swallows its own failures
(lines 1543-1549) and has no session-visible effect. -/
def toolOutcome (r : Except String (JVal × CallMemory)) (mem : CallMemory) :
    JVal × CallMemory :=
  match r with
  | .ok vm => vm
  | .error e => (.obj [("error", .str e)], mem)

/-- The asynchronous remainder of `maybeHandleToolCall` after dispatch
(lines 2556-2819): parse the argument string (`safeJsonParse(argsStr ||
'{}')`, empty object on failure), run the executor under the catch
boundary, and send the `function_call_output` conversation item back to the
model. -/
def handleToolResult (h : Host) (s : SessionState) (callId fnName argsStr : String) :
    SessionState :=
  let args := (h.jsonParse (if argsStr = "" then "{}" else argsStr)).getD (.obj [])
  let rm := toolOutcome (executeTool h s.callMemory fnName args) s.callMemory
  let s := { s with callMemory := rm.2 }
  sendToOpenAI s (.functionCallOutput callId rm.1)

/-! ### Specification-side helpers and concrete demonstration inputs
used by the theorems below -/

/-- Concrete instance for `backpressure_flush_skips_and_discards`:
70000 bytes outstanding exceeds the 65536-byte ceiling. -/
def sBackpressured : SessionState :=
  { sessionInit "203.0.113.9" with
    bufferedAmount := 70000
    outBuffer := ["QUJD", "REVG"]
    outTimer := true
    streamSid := some "MZ0001"
    openaiOpen := true }

/-- A session whose aggregation buffer is exactly at the 500-frame bound. -/
def sFullBuffer : SessionState :=
  { sessionInit "198.51.100.7" with
    outBuffer := List.replicate MAX_AUDIO_QUEUE_SIZE "AA==" }

/-- A demo host whose external collaborators all fail. -/
def hostDemo : Host where
  postJson := fun _ _ => .error "ECONNREFUSED"
  jsonParse := fun _ => none
  nowMs := 0
  port := 3000
  dateParse := fun _ => none
  toNumber := fun _ => none
  isoOfMs := fun _ => ""
  stripRegexD := fun s => s
  inferTimeZone := fun _ _ => "America/New_York"
  parseWeekdayIndex := fun _ => none
  parseTimeOfDay := fun _ => none
  getZonedParts := fun _ _ => ⟨1970, 1, 1, 0, 0, 0, "Thu"⟩
  dateUTC := fun _ _ _ _ _ _ => 0
  utcYMD := fun _ => (1970, 1, 1)
  zonedToUtcIso := fun _ _ _ _ _ _ => ""
  normalizeEmailAddress := fun _ => ""

def sOpenSession : SessionState := { sessionInit "192.0.2.1" with openaiOpen := true }

def gEmptyGate : GateState := ⟨[], [], [], 0⟩

/-- A gate state in which address 203.0.113.5 suffered a rejection at time
1000 and is inside its 30-second cooldown at time 1500. -/
def gAfterRejection : GateState := ⟨[("203.0.113.5", 1000)], [], [], 1⟩

/-- Gate state with a fresh rejection for one address and a recent attempt
for one (address, streamSid) pair. -/
def gCooldowns : GateState :=
  ⟨[("198.51.100.1", 5000)], [("198.51.100.1:MZ77", 2000)], [], 3⟩

/-- Gate state whose only entry is a 500 ms-old (address, streamSid) attempt
timestamp — no per-address rejection cooldown, no tracked connections. -/
def gStreamOnly : GateState := ⟨[], [("198.51.100.1:MZ77", 2000)], [], 0⟩

/-- The two equivalent authoritative complete-event forms of the upstream
protocol: `response.function_call_arguments.done` and
`response.output_item.done` with a `function_call` item. -/
def authoritativeEvent (b : Bool) (cid name args : String) : OAIEvent :=
  if b then .argsDone cid name args else .itemDone cid name args

/-- Number of executor invocations recorded for one call identifier. -/
def countDispatches (cid : String) (l : List (String × FnItem)) : Nat :=
  (l.filter (fun d => d.1 == cid)).length

/-- 102 authoritative events: id `A`, then 100 distinct ids `0` … `99`,
then id `A` again — enough to evict `A` from the bounded handled set. -/
def evictionStorm : List OAIEvent :=
  OAIEvent.argsDone "A" "f" "x" ::
    ((List.range MAX_HANDLED_TOOL_IDS).map
        (fun i => OAIEvent.argsDone (toString i) "f" "x")
      ++ [OAIEvent.argsDone "A" "f" "x"])

/-- The outcome `checkRateLimit` produces for the `n`-th admission check of
an uninterrupted window. -/
def expectedRateResult (n : Nat) : RateResult :=
  if n ≤ RATE_LIMIT_MAX_REQUESTS then .allowed
  else if n ≤ RATE_LIMIT_CIRCUIT_BREAKER then .rate_limit
  else .circuit_breaker

/-! ## Helper lemmas -/

lemma sendToTwilio_outBuffer (s : SessionState) (p : String) :
    (sendToTwilio s p).outBuffer = s.outBuffer := by
  unfold sendToTwilio; split_ifs <;> rfl

lemma flushAudioAggregation_outBuffer (s : SessionState) :
    (flushAudioAggregation s).outBuffer = [] := by
  simp only [flushAudioAggregation]
  split_ifs with h
  · simpa using h
  · simp [sendToTwilio_outBuffer]

/-! ## Claim C6 — backpressure flush drops data -/

/-- C6: whenever the outbound aggregator flushes while the Twilio socket's
`bufferedAmount` exceeds the 64 KiB ceiling, the send is skipped and the
buffered audio is discarded: afterwards the aggregation buffer is empty, the
timer is cancelled, and nothing was appended to the sent stream — the state
retains no copy of the dropped aggregate, so it can never be retried. -/
theorem backpressure_flush_skips_and_discards (s : SessionState)
    (hbp : BACKPRESSURE_LIMIT < s.bufferedAmount) :
    (flushAudioAggregation s).outBuffer = [] ∧
    (flushAudioAggregation s).sentToTwilio = s.sentToTwilio ∧
    (flushAudioAggregation s).outTimer = false := by
  refine ⟨flushAudioAggregation_outBuffer s, ?_, ?_⟩ <;>
    · simp only [flushAudioAggregation, sendToTwilio]
      split_ifs <;> simp_all

theorem backpressure_flush_skips_and_discards_witness :
    (flushAudioAggregation sBackpressured).outBuffer = [] ∧
    (flushAudioAggregation sBackpressured).sentToTwilio = sBackpressured.sentToTwilio ∧
    (flushAudioAggregation sBackpressured).outTimer = false :=
  backpressure_flush_skips_and_discards sBackpressured (by decide)

/-! ## Claim C7 — bounded aggregation buffer, but no drop counter -/

/-- C7 counterexample: offering a frame while the buffer is at the bound
leaves the *entire* session state unchanged — `queueAudio` only emits a debug
log in that branch, so no drop counter exists anywhere in the per-session
state to be increased, refuting the claim's "increases a drop counter". -/
theorem queueAudio_at_bound_is_pure_noop :
    queueAudio sFullBuffer "Lw==" = sFullBuffer := by
  have hlen : MAX_AUDIO_QUEUE_SIZE ≤ sFullBuffer.outBuffer.length := by
    simp [sFullBuffer, sessionInit]
  simp only [queueAudio]
  rw [if_pos hlen]

/-- C7 (amended): the outbound aggregation buffer never exceeds its
500-frame bound, and a frame offered while the buffer is at the bound is
dropped without blocking and without any state change (the drop is only
debug-logged; no counter is incremented). -/
theorem queueAudio_bounded (s : SessionState) (p : String)
    (hinv : s.outBuffer.length ≤ MAX_AUDIO_QUEUE_SIZE) :
    (queueAudio s p).outBuffer.length ≤ MAX_AUDIO_QUEUE_SIZE ∧
    (MAX_AUDIO_QUEUE_SIZE ≤ s.outBuffer.length → queueAudio s p = s) := by
  constructor
  · simp only [queueAudio]
    split_ifs with h1 h2 h3
    · exact hinv
    · simp [flushAudioAggregation_outBuffer]
    · simp only [List.length_append, List.length_singleton]
      omega
    · simp only [List.length_append, List.length_singleton]
      omega
  · intro hfull
    simp only [queueAudio]
    rw [if_pos hfull]

theorem queueAudio_bounded_witness :
    (queueAudio sFullBuffer "Lw==").outBuffer.length ≤ MAX_AUDIO_QUEUE_SIZE ∧
    (MAX_AUDIO_QUEUE_SIZE ≤ sFullBuffer.outBuffer.length →
      queueAudio sFullBuffer "Lw==" = sFullBuffer) :=
  queueAudio_bounded sFullBuffer "Lw==" (by simp [sFullBuffer, sessionInit])

/-! ## Claim C8 — idempotent teardown, either close order -/

/-- The `ws.on('close')` body as a single record transformation. -/
lemma onTwilioCloseEvent_eq (s : SessionState) :
    onTwilioCloseEvent s =
      { s with
        twilioOpen := false, openaiOpen := false,
        outTimer := false, inTimer := false, connTracked := false,
        outBuffer := [], inBuffer := [], handled := [], pending := [],
        sentToOpenAI :=
          if s.openaiOpen ∧ s.inBuffer ≠ [] then
            s.sentToOpenAI ++ [.inputAudioAppend (String.join s.inBuffer)]
          else s.sentToOpenAI } := by
  simp only [onTwilioCloseEvent, flushInboundAudio, closeOpenAI, flushAudioAggregation,
    sendToOpenAI, sendToTwilio]
  split_ifs <;> simp_all

/-- C8: closing a session's two legs in either order runs the full teardown
sequence exactly once (the count returned by `processCloses`), the resulting
state is fully cleaned in both orders (both legs closed, timers cancelled,
buffers, pending map and handled set cleared, connection untracked), and
running the teardown a second time is a no-op (idempotent close). -/
theorem teardown_either_order_idempotent (s : SessionState) :
    (processCloses s [.openaiClosed, .twilioClosed]).2 = 1 ∧
    (processCloses s [.twilioClosed, .openaiClosed]).2 = 1 ∧
    isCleaned (processCloses s [.openaiClosed, .twilioClosed]).1 ∧
    isCleaned (processCloses s [.twilioClosed, .openaiClosed]).1 ∧
    onTwilioCloseEvent (onTwilioCloseEvent s) = onTwilioCloseEvent s := by
  refine ⟨rfl, rfl, ?_, ?_, ?_⟩
  · simp [processCloses, onOpenAICloseEvent, onTwilioCloseEvent_eq, isCleaned]
  · simp [processCloses, onOpenAICloseEvent, onTwilioCloseEvent_eq, isCleaned]
  · rw [onTwilioCloseEvent_eq, onTwilioCloseEvent_eq]
    simp

lemma lookup_mapSet {α : Type} (l : List (String × α)) (k : String) (v : α) :
    (mapSet l k v).lookup k = some v := by
  induction l with
  | nil => simp [mapSet, List.lookup]
  | cons p rest ih =>
    obtain ⟨k', v'⟩ := p
    by_cases h : k' = k
    · simp [mapSet, h, List.lookup]
    · simp only [mapSet, if_neg h, List.lookup]
      have : (k == k') = false := by
        simp [Ne.symm h]
      simp [this, ih]

lemma startOpenAI_started (s : SessionState) : (startOpenAI s).openaiStarted = true := by
  simp only [startOpenAI]
  split_ifs with h
  · exact h
  · rfl

/-! ## Claim C9 — the tool-executor boundary never leaks failures -/

/-- C9: for every tool name and argument payload (and any behaviour of the
host collaborators), the executor boundary is total: an `Except.error`
raised anywhere inside `executeTool` — including unknown tool names and
external-collaborator failures — is converted into the structured payload
`{ error: message }`, and in both the success and the failure case exactly
one well-formed `function_call_output` message carrying the result is
appended to the session's OpenAI-bound stream, with both legs of the
session left open. -/
theorem toolExecutor_boundary (h : Host) (s : SessionState)
    (callId fnName argsStr : String) (hopen : s.openaiOpen = true) :
    (handleToolResult h s callId fnName argsStr).sentToOpenAI =
      s.sentToOpenAI ++ [OutMsg.functionCallOutput callId
        (toolOutcome (executeTool h s.callMemory fnName
          ((h.jsonParse (if argsStr = "" then "{}" else argsStr)).getD (.obj [])))
          s.callMemory).1] ∧
    (∀ e, executeTool h s.callMemory fnName
        ((h.jsonParse (if argsStr = "" then "{}" else argsStr)).getD (.obj [])) = .error e →
      (toolOutcome (executeTool h s.callMemory fnName
          ((h.jsonParse (if argsStr = "" then "{}" else argsStr)).getD (.obj [])))
          s.callMemory).1 = .obj [("error", .str e)]) ∧
    (handleToolResult h s callId fnName argsStr).twilioOpen = s.twilioOpen ∧
    (handleToolResult h s callId fnName argsStr).openaiOpen = true := by
  refine ⟨?_, ?_, ?_, ?_⟩
  · simp [handleToolResult, sendToOpenAI, hopen]
  · intro e he
    simp [toolOutcome, he]
  · simp [handleToolResult, sendToOpenAI, hopen]
  · simp [handleToolResult, sendToOpenAI, hopen]

theorem toolExecutor_boundary_witness :
    (handleToolResult hostDemo sOpenSession "call_7" "no_such_tool" "").sentToOpenAI =
      sOpenSession.sentToOpenAI ++ [OutMsg.functionCallOutput "call_7"
        (toolOutcome (executeTool hostDemo sOpenSession.callMemory "no_such_tool"
          ((hostDemo.jsonParse (if ("" : String) = "" then "{}" else "")).getD (.obj [])))
          sOpenSession.callMemory).1] ∧
    (∀ e, executeTool hostDemo sOpenSession.callMemory "no_such_tool"
        ((hostDemo.jsonParse (if ("" : String) = "" then "{}" else "")).getD (.obj [])) = .error e →
      (toolOutcome (executeTool hostDemo sOpenSession.callMemory "no_such_tool"
          ((hostDemo.jsonParse (if ("" : String) = "" then "{}" else "")).getD (.obj [])))
          sOpenSession.callMemory).1 = .obj [("error", .str e)]) ∧
    (handleToolResult hostDemo sOpenSession "call_7" "no_such_tool" "").twilioOpen =
      sOpenSession.twilioOpen ∧
    (handleToolResult hostDemo sOpenSession "call_7" "no_such_tool" "").openaiOpen = true :=
  toolExecutor_boundary hostDemo sOpenSession "call_7" "no_such_tool" "" rfl

/-! ## Claim C10 — the in-band token is optional at the start event -/

/-- C10: at the telephony `start` event's in-band validation point, with a
shared secret configured, a start event whose custom parameters carry no
token at all proceeds and starts the speech-AI leg; the connection is closed
— recording a rejection cooldown for the client address — only when an
in-band token is present (truthy) and differs from the configured secret. -/
theorem startEvent_token_optional (secret : String) (hsec : secret ≠ "")
    (g : GateState) (s : SessionState) (hip : s.clientIp ≠ "")
    (sid cpAgent : Option String) (now : Nat) :
    ((handleStartEvent (some secret) g s sid cpAgent none now).1 = .proceeded ∧
     (handleStartEvent (some secret) g s sid cpAgent none now).2.2.openaiStarted = true) ∧
    (∀ cpToken,
      (handleStartEvent (some secret) g s sid cpAgent cpToken now).1 = .rejected →
      ∃ t, cpToken = some t ∧ t ≠ "" ∧ t ≠ secret ∧
        (handleStartEvent (some secret) g s sid cpAgent cpToken now).2.1.ipRejectionCooldowns.lookup
          s.clientIp = some now) := by
  constructor
  · constructor
    · simp [handleStartEvent]
    · simp [handleStartEvent, startOpenAI_started]
  · intro cpToken hrej
    match cpToken with
    | none => simp [handleStartEvent] at hrej
    | some t =>
      by_cases hcond : secret ≠ "" ∧ t ≠ "" ∧ t ≠ secret
      · refine ⟨t, rfl, hcond.2.1, hcond.2.2, ?_⟩
        simp only [handleStartEvent, if_pos hcond]
        split_ifs <;> simp_all [trackRejection, lookup_mapSet]
      · exfalso
        simp only [handleStartEvent, if_neg hcond] at hrej
        exact StartOutcome.noConfusion hrej

theorem startEvent_token_optional_witness :
    ((handleStartEvent (some "s3cr3t") gEmptyGate (sessionInit "192.0.2.44")
        (some "MZ9") none none 1234).1 = .proceeded ∧
     (handleStartEvent (some "s3cr3t") gEmptyGate (sessionInit "192.0.2.44")
        (some "MZ9") none none 1234).2.2.openaiStarted = true) ∧
    (∀ cpToken,
      (handleStartEvent (some "s3cr3t") gEmptyGate (sessionInit "192.0.2.44")
        (some "MZ9") none cpToken 1234).1 = .rejected →
      ∃ t, cpToken = some t ∧ t ≠ "" ∧ t ≠ "s3cr3t" ∧
        (handleStartEvent (some "s3cr3t") gEmptyGate (sessionInit "192.0.2.44")
          (some "MZ9") none cpToken 1234).2.1.ipRejectionCooldowns.lookup
            (sessionInit "192.0.2.44").clientIp = some 1234) :=
  startEvent_token_optional "s3cr3t" (by decide) gEmptyGate (sessionInit "192.0.2.44")
    (by decide) (some "MZ9") none 1234

/-! ## Claim C3 — strict URL-token validation at the upgrade stage -/

/-- C3 counterexample: with *no* secret configured, the upgrade attempt from
a cooled-down address is still destroyed at the transport-accept stage, so
"when no secret is configured, every candidate is accepted" is false as
stated for upgrade attempts on the stream path. -/
theorem noSecret_candidate_still_destroyed :
    (handleUpgrade none gAfterRejection "/twilio/stream" none "203.0.113.5" 1500).1
      = .destroyed := by decide

/-- C3 (amended): when a stream secret is configured, every upgrade attempt
on the stream path whose URL token is missing or differs from the secret is
rejected at the transport-accept stage (the socket is destroyed before
`wss.handleUpgrade` runs, hence before any duplex upgrade or audio relay);
and when no secret is configured, every candidate that is not pre-empted by
the admission gates (reconnect cooldown, per-address connection cap) is
accepted. -/
theorem upgrade_secret_validation (secret : String) (hsec : secret ≠ "")
    (g : GateState) (token : Option String) (ip : String) (now : Nat) :
    ((∀ t, token = some t → t ≠ secret) →
      (handleUpgrade (some secret) g "/twilio/stream" token ip now).1 = .destroyed) ∧
    (∀ (g' : GateState) (token' : Option String) (ip' : String) (now' : Nat),
      checkReconnectCooldown g' ip' none now' = none →
      canOpenWsConnection g' ip' = true →
      (handleUpgrade none g' "/twilio/stream" token' ip' now').1 = .accepted) := by
  constructor
  · intro htok
    rcases token with _ | t
    · simp only [handleUpgrade]
      split_ifs <;> simp_all
    · have hts : t ≠ secret := htok t rfl
      simp only [handleUpgrade]
      split_ifs <;> simp_all
  · intro g' token' ip' now' hcd hcap
    simp [handleUpgrade, hcd, hcap]

theorem upgrade_secret_validation_witness :
    (handleUpgrade (some "s3cr3t") gEmptyGate "/twilio/stream" (some "wrong")
      "198.51.100.20" 999).1 = .destroyed ∧
    (handleUpgrade none gEmptyGate "/twilio/stream" none "198.51.100.20" 999).1 = .accepted :=
  ⟨(upgrade_secret_validation "s3cr3t" (by decide) gEmptyGate (some "wrong")
      "198.51.100.20" 999).1 (by intro t ht; cases ht; decide),
   (upgrade_secret_validation "s3cr3t" (by decide) gEmptyGate (some "wrong")
      "198.51.100.20" 999).2 gEmptyGate none "198.51.100.20" 999 (by decide) (by decide)⟩

/-! ## Claim C4 — rejection cooldowns -/

/-- C4 counterexample: the per-(address, streamSid) attempt timestamp for
198.51.100.1 / MZ77 is only 500 ms old, yet the very next upgrade attempt
from that address — the only place where blocking could occur, and it always
passes a *null* stream id to `checkReconnectCooldown` (server.cjs:2171) — is
accepted: the per-stream timestamp never blocks anything, refuting the
claim's "additionally blocks the same stream identity for 60 seconds". -/
theorem streamSid_cooldown_never_blocks_example :
    (handleUpgrade none gStreamOnly "/twilio/stream" none "198.51.100.1" 2500).1
      = .accepted := by decide

lemma checkReconnectCooldown_null_rc (g : GateState) (rc : List (String × Nat))
    (ip : String) (now : Nat) :
    checkReconnectCooldown { g with reconnectCooldowns := rc } ip none now
      = checkReconnectCooldown g ip none now := rfl

/-- C4 (amended): every destroyed upgrade attempt on the stream path records
the per-address rejection timestamp, and while that timestamp is younger
than 30 seconds every further upgrade attempt from the address is destroyed
pre-emptively, whatever token it carries (even the correct one).  The
telephony start event records a per-(address, streamSid) attempt timestamp,
but the upgrade gate always consults the cooldown check with a null stream
id, so the admission decision is independent of the per-stream table and no
upgrade attempt is ever blocked by it. -/
theorem rejection_cooldown_scope (g : GateState) (secret : Option String) (ip : String) :
    (∀ (token : Option String) (now : Nat),
      (handleUpgrade secret g "/twilio/stream" token ip now).1 = .destroyed →
      (handleUpgrade secret g "/twilio/stream" token ip now).2.ipRejectionCooldowns.lookup ip
        = some now) ∧
    (∀ (t now : Nat) (token : Option String),
      g.ipRejectionCooldowns.lookup ip = some t →
      now - t < WS_REJECTED_COOLDOWN_MS →
      (handleUpgrade secret g "/twilio/stream" token ip now).1 = .destroyed) ∧
    (∀ (rc : List (String × Nat)) (path : String) (token : Option String) (now : Nat),
      (handleUpgrade secret { g with reconnectCooldowns := rc } path token ip now).1
        = (handleUpgrade secret g path token ip now).1) ∧
    (∀ (s : SessionState) (sid : String) (cpAgent cpToken : Option String) (now : Nat),
      s.clientIp = ip → ip ≠ "" → sid ≠ "" →
      ((handleStartEvent secret g s (some sid) cpAgent cpToken now).2.1).reconnectCooldowns.lookup
        (ip ++ ":" ++ sid) = some now) := by
  refine ⟨?_, ?_, ?_, ?_⟩
  · intro token now hdes
    rcases secret with _ | sec
    · simp only [handleUpgrade] at hdes ⊢
      split_ifs at hdes ⊢ <;> simp_all [trackRejection, lookup_mapSet]
    · rcases token with _ | tk
      · simp only [handleUpgrade] at hdes ⊢
        split_ifs at hdes ⊢ <;> simp_all [trackRejection, lookup_mapSet]
      · simp only [handleUpgrade] at hdes ⊢
        split_ifs at hdes ⊢ <;> simp_all [trackRejection, lookup_mapSet]
  · intro t now token hl hwin
    have hcd : checkReconnectCooldown g ip none now = some .ip_rejection_cooldown := by
      simp only [checkReconnectCooldown, hl]
      rw [if_pos hwin]
    simp [handleUpgrade, hcd]
  · intro rc path token now
    have hcan : canOpenWsConnection { g with reconnectCooldowns := rc } ip
        = canOpenWsConnection g ip := rfl
    rcases secret with _ | sec <;> rcases token with _ | tk <;>
      · simp only [handleUpgrade, checkReconnectCooldown_null_rc, hcan]
        split_ifs <;> rfl
  · intro s sid cpAgent cpToken now hipeq hip hsid
    subst hipeq
    rcases secret with _ | sec <;> rcases cpToken with _ | t <;>
      · simp only [handleStartEvent]
        split_ifs <;>
          simp_all [trackConnectionAttempt, trackRejection, lookup_mapSet, strTruthy]

theorem rejection_cooldown_scope_witness :
    (handleUpgrade (some "tok") gCooldowns "/twilio/stream" (some "tok")
      "198.51.100.1" 6000).1 = .destroyed ∧
    (handleUpgrade (some "tok") gCooldowns "/twilio/stream" (some "tok")
      "198.51.100.1" 6000).2.ipRejectionCooldowns.lookup "198.51.100.1" = some 6000 ∧
    (handleUpgrade none { gEmptyGate with reconnectCooldowns := [("198.51.100.1:MZ77", 2000)] }
        "/twilio/stream" none "198.51.100.1" 2500).1
      = (handleUpgrade none gEmptyGate "/twilio/stream" none "198.51.100.1" 2500).1 ∧
    ((handleStartEvent (some "tok") gEmptyGate (sessionInit "198.51.100.1")
        (some "MZ77") none none 3000).2.1).reconnectCooldowns.lookup
      ("198.51.100.1" ++ ":" ++ "MZ77") = some 3000 := by
  have h := rejection_cooldown_scope gCooldowns (some "tok") "198.51.100.1"
  have h2 := rejection_cooldown_scope gEmptyGate (some "tok") "198.51.100.1"
  have hdes := h.2.1 5000 6000 (some "tok") (by decide) (by decide)
  exact ⟨hdes, h.1 (some "tok") 6000 hdes,
    (rejection_cooldown_scope gEmptyGate none "198.51.100.1").2.2.1
      [("198.51.100.1:MZ77", 2000)] "/twilio/stream" none 2500,
    h2.2.2.2 (sessionInit "198.51.100.1") "MZ77" none none 3000 rfl (by decide) (by decide)⟩

/-! ## Claims C1 and C2 — tool-call aggregation and dispatch -/

lemma countDispatches_append_other (cid c' : String) (it : FnItem)
    (l : List (String × FnItem)) (h : c' ≠ cid) :
    countDispatches cid (l ++ [(c', it)]) = countDispatches cid l := by
  simp [countDispatches, List.filter_append, h]

lemma countDispatches_append_self (cid : String) (it : FnItem)
    (l : List (String × FnItem)) :
    countDispatches cid (l ++ [(cid, it)]) = countDispatches cid l + 1 := by
  simp [countDispatches, List.filter_append]

lemma sendToTwilio_dispatched (s : SessionState) (p : String) :
    (sendToTwilio s p).dispatched = s.dispatched := by
  simp only [sendToTwilio]; split_ifs <;> rfl

lemma flushAudioAggregation_dispatched (s : SessionState) :
    (flushAudioAggregation s).dispatched = s.dispatched := by
  simp only [flushAudioAggregation]; split_ifs <;> simp [sendToTwilio_dispatched]

lemma queueAudio_dispatched (s : SessionState) (p : String) :
    (queueAudio s p).dispatched = s.dispatched := by
  simp only [queueAudio]; split_ifs <;> simp [flushAudioAggregation_dispatched]

lemma sendToTwilio_handled (s : SessionState) (p : String) :
    (sendToTwilio s p).handled = s.handled := by
  simp only [sendToTwilio]; split_ifs <;> rfl

lemma flushAudioAggregation_handled (s : SessionState) :
    (flushAudioAggregation s).handled = s.handled := by
  simp only [flushAudioAggregation]; split_ifs <;> simp [sendToTwilio_handled]

lemma queueAudio_handled (s : SessionState) (p : String) :
    (queueAudio s p).handled = s.handled := by
  simp only [queueAudio]; split_ifs <;> simp [flushAudioAggregation_handled]

/-- Partial-argument delta events only touch the pending map. -/
lemma processEvent_argsDelta_frame (s : SessionState) (cid d : String) :
    (processEvent s (.argsDelta cid d)).handled = s.handled ∧
    (processEvent s (.argsDelta cid d)).dispatched = s.dispatched := by
  refine ⟨?_, ?_⟩ <;>
    · simp only [processEvent]
      repeat' first | split | rfl

lemma processEvents_deltas (s : SessionState) (ds : List String) (cid : String) :
    (processEvents s (ds.map (OAIEvent.argsDelta cid))).handled = s.handled ∧
    (processEvents s (ds.map (OAIEvent.argsDelta cid))).dispatched = s.dispatched := by
  induction ds generalizing s with
  | nil => exact ⟨rfl, rfl⟩
  | cons d ds ih =>
    simp only [List.map_cons, processEvents, List.foldl_cons]
    have h1 := processEvent_argsDelta_frame s cid d
    have h2 := ih (processEvent s (.argsDelta cid d))
    exact ⟨h2.1.trans h1.1, h2.2.trans h1.2⟩

/-- Dispatching a fresh call id appends exactly one executor invocation and
adds the id to the handled set. -/
lemma dispatchCall_fresh (s : SessionState) (cid n a : String)
    (hcid : cid ≠ "") (hn : n ≠ "") (hmem : cid ∉ s.handled) :
    (dispatchCall s cid n a).dispatched = s.dispatched ++ [(cid, ⟨n, a⟩)] ∧
    cid ∈ (dispatchCall s cid n a).handled := by
  simp only [dispatchCall, addHandledToolCallId]
  rw [if_neg (by simp [hn, hcid])]
  rw [if_neg hmem]
  exact ⟨rfl, by simp⟩

/-- A dispatch attempt never records a new invocation for an id that is
currently in the handled set. -/
lemma dispatchCall_count_handled (s : SessionState) (cid c' n a : String)
    (hmem : cid ∈ s.handled) :
    countDispatches cid (dispatchCall s c' n a).dispatched
      = countDispatches cid s.dispatched := by
  simp only [dispatchCall, addHandledToolCallId]
  split_ifs with hguard hmem'
  · rfl
  · rfl
  · have hne : c' ≠ cid := fun he => hmem' (he ▸ hmem)
    simpa using countDispatches_append_other cid c' ⟨n, a⟩ s.dispatched hne

/-- No event can dispatch an id that is currently in the handled set. -/
lemma processEvent_count_handled (s : SessionState) (cid : String) (ev : OAIEvent)
    (hmem : cid ∈ s.handled) :
    countDispatches cid (processEvent s ev).dispatched
      = countDispatches cid s.dispatched := by
  cases ev with
  | audioDelta d =>
    simp only [processEvent]
    split_ifs
    · rfl
    · rw [queueAudio_dispatched]
  | argsDelta cid' d => rw [(processEvent_argsDelta_frame s cid' d).2]
  | itemAdded cid' n =>
    simp only [processEvent]
    repeat' first | split | rfl
  | itemDone cid' n a =>
    simp only [processEvent]
    split_ifs <;> exact dispatchCall_count_handled _ cid cid' n a hmem
  | argsDone cid' n a => exact dispatchCall_count_handled s cid cid' n a hmem
  | responseDone items => rfl
  | other => rfl

/-- Either authoritative form dispatches a fresh id exactly once and marks
it handled. -/
lemma processEvent_auth_fresh (s : SessionState) (b : Bool) (cid n a : String)
    (hcid : cid ≠ "") (hn : n ≠ "") (hmem : cid ∉ s.handled) :
    countDispatches cid (processEvent s (authoritativeEvent b cid n a)).dispatched
      = countDispatches cid s.dispatched + 1 ∧
    cid ∈ (processEvent s (authoritativeEvent b cid n a)).handled := by
  cases b
  · -- itemDone form: the pending entry is replaced first, then dispatch
    simp only [authoritativeEvent, if_neg (by decide : ¬False), Bool.false_eq_true,
      if_false, processEvent, if_pos hcid]
    set s' : SessionState := { s with pending := mapSet s.pending cid ⟨n, a⟩ } with hs'
    have h := dispatchCall_fresh s' cid n a hcid hn (by simpa [hs'] using hmem)
    refine ⟨?_, h.2⟩
    rw [h.1]
    simpa [hs'] using countDispatches_append_self cid ⟨n, a⟩ s.dispatched
  · simp only [authoritativeEvent, if_pos, processEvent]
    have h := dispatchCall_fresh s cid n a hcid hn hmem
    refine ⟨?_, h.2⟩
    rw [h.1]
    exact countDispatches_append_self cid ⟨n, a⟩ s.dispatched

/-- C1: for every sequence of partial-argument delta events for a call id
followed by one authoritative complete event for that id — in either of its
two forms — the invocation handed to the tool executor carries exactly the
authoritative event's arguments payload, never a concatenation of the
accumulated deltas with it. -/
theorem dispatch_uses_authoritative_args (ip : String) (ds : List String)
    (cid name args : String) (b : Bool) (hcid : cid ≠ "") (hname : name ≠ "") :
    (processEvents (sessionInit ip)
        (ds.map (OAIEvent.argsDelta cid) ++ [authoritativeEvent b cid name args])).dispatched
      = [(cid, ⟨name, args⟩)] := by
  have hfr := processEvents_deltas (sessionInit ip) ds cid
  simp only [processEvents, List.foldl_append, List.foldl_cons, List.foldl_nil]
  set s1 := (ds.map (OAIEvent.argsDelta cid)).foldl processEvent (sessionInit ip) with hs1
  have hh : s1.handled = [] := hfr.1
  have hd : s1.dispatched = [] := hfr.2
  have hmem : cid ∉ s1.handled := by rw [hh]; exact List.not_mem_nil cid
  cases b
  · simp only [authoritativeEvent, Bool.false_eq_true, if_false, processEvent, if_pos hcid]
    have h := dispatchCall_fresh { s1 with pending := mapSet s1.pending cid ⟨name, args⟩ }
      cid name args hcid hname (by simpa using hmem)
    rw [h.1]
    simp [hd]
  · simp only [authoritativeEvent, if_pos, processEvent]
    have h := dispatchCall_fresh s1 cid name args hcid hname hmem
    rw [h.1, hd]
    simp

theorem dispatch_uses_authoritative_args_witness :
    (processEvents (sessionInit "192.0.2.10")
        ((["partial-one", "partial-two", "partial-three"].map (OAIEvent.argsDelta "call_1"))
          ++ [authoritativeEvent true "call_1" "get_weather" "full-authoritative-args"])).dispatched
      = [("call_1", ⟨"get_weather", "full-authoritative-args"⟩)] :=
  dispatch_uses_authoritative_args "192.0.2.10" ["partial-one", "partial-two", "partial-three"]
    "call_1" "get_weather" "full-authoritative-args" true (by decide) (by decide)

set_option maxRecDepth 100000 in
/-- C2 counterexample: in one session, call id `A` is dispatched to the
executor twice — the claim's unconditional "at most once, even if both
authoritative forms arrive" fails once 100 distinct other ids have evicted
`A` from the bounded handled set between the two authoritative events. -/
theorem dispatch_twice_after_eviction :
    countDispatches "A" (processEvents (sessionInit "ip") evictionStorm).dispatched = 2 := by
  decide

/-- C2 (amended): a call identifier is dispatched at most once *while it
remains in the bounded already-handled set*: any event processed while the
id is in the set records no new invocation for it (a no-op), and the two
authoritative forms arriving for a fresh id — in any combination, including
a repeat of the same form — yield exactly one dispatch, because the first
one inserts the id into the set.  (The set evicts its oldest entry beyond
100 ids, so only an intervening run of 100 distinct dispatches can re-enable
an id.) -/
theorem dispatch_at_most_once_while_tracked (s : SessionState) (cid : String) :
    (∀ ev : OAIEvent, cid ∈ s.handled →
      countDispatches cid (processEvent s ev).dispatched
        = countDispatches cid s.dispatched) ∧
    (∀ (b₁ b₂ : Bool) (n₁ a₁ n₂ a₂ : String), cid ∉ s.handled → cid ≠ "" →
      n₁ ≠ "" → n₂ ≠ "" →
      countDispatches cid (processEvents s
          [authoritativeEvent b₁ cid n₁ a₁, authoritativeEvent b₂ cid n₂ a₂]).dispatched
        = countDispatches cid s.dispatched + 1) := by
  constructor
  · exact fun ev hmem => processEvent_count_handled s cid ev hmem
  · intro b₁ b₂ n₁ a₁ n₂ a₂ hmem hcid hn1 hn2
    simp only [processEvents, List.foldl_cons, List.foldl_nil]
    have h1 := processEvent_auth_fresh s b₁ cid n₁ a₁ hcid hn1 hmem
    have h2 := processEvent_count_handled (processEvent s (authoritativeEvent b₁ cid n₁ a₁))
      cid (authoritativeEvent b₂ cid n₂ a₂) h1.2
    rw [h2, h1.1]

theorem dispatch_at_most_once_while_tracked_witness :
    countDispatches "call_9"
        (processEvent { sessionInit "192.0.2.11" with handled := ["call_9"] }
          (authoritativeEvent true "call_9" "f" "{}")).dispatched
      = countDispatches "call_9"
          ({ sessionInit "192.0.2.11" with handled := ["call_9"] } : SessionState).dispatched ∧
    countDispatches "call_8"
        (processEvents (sessionInit "192.0.2.11")
          [authoritativeEvent true "call_8" "f" "{}",
           authoritativeEvent false "call_8" "g" "second-args"]).dispatched
      = countDispatches "call_8" (sessionInit "192.0.2.11").dispatched + 1 :=
  ⟨(dispatch_at_most_once_while_tracked
      { sessionInit "192.0.2.11" with handled := ["call_9"] } "call_9").1
      (authoritativeEvent true "call_9" "f" "{}") (by decide),
   (dispatch_at_most_once_while_tracked (sessionInit "192.0.2.11") "call_8").2
      true false "f" "{}" "g" "second-args" (by decide) (by decide) (by decide) (by decide)⟩

/-! ## Claim C5 — rate-limit scenario: 60 allowed, 60 soft-limited,
10 circuit-broken, reset after the window -/

lemma expectedRateResult_high (n : Nat) (hn : RATE_LIMIT_CIRCUIT_BREAKER < n) :
    expectedRateResult n = .circuit_breaker := by
  simp only [expectedRateResult, RATE_LIMIT_MAX_REQUESTS, RATE_LIMIT_CIRCUIT_BREAKER] at *
  rw [if_neg (by omega), if_neg (by omega)]

lemma checkRateLimit_within (c t0 t : Nat) (hc : c ≤ 121)
    (ht : t - t0 ≤ RATE_LIMIT_WINDOW_MS) :
    checkRateLimit t (some ⟨c, t0, decide (c = 121)⟩)
      = (expectedRateResult (c + 1),
         ⟨min (c + 1) 121, t0, decide (min (c + 1) 121 = 121)⟩) := by
  have hreset : ¬ RATE_LIMIT_WINDOW_MS < t - t0 := by omega
  by_cases h121 : c = 121
  · subst h121
    simp [checkRateLimit, hreset, expectedRateResult, RATE_LIMIT_MAX_REQUESTS,
      RATE_LIMIT_CIRCUIT_BREAKER]
  · have hb : decide (c = 121) = false := by simp [h121]
    by_cases h120 : c = 120
    · subst h120
      simp [checkRateLimit, hreset, expectedRateResult, RATE_LIMIT_MAX_REQUESTS,
        RATE_LIMIT_CIRCUIT_BREAKER]
    · have hle : c + 1 ≤ 120 := by omega
      have hnb : ¬ RATE_LIMIT_CIRCUIT_BREAKER < c + 1 := by
        simp only [RATE_LIMIT_CIRCUIT_BREAKER]; omega
      have hmin : min (c + 1) 121 = c + 1 := by omega
      have hd : decide (min (c + 1) 121 = 121) = false := by
        rw [hmin]; simp; omega
      by_cases h60 : 60 < c + 1
      · have h1 : RATE_LIMIT_MAX_REQUESTS < c + 1 := by
          simp only [RATE_LIMIT_MAX_REQUESTS]; omega
        have h2 : ¬ (c + 1 ≤ RATE_LIMIT_MAX_REQUESTS) := by omega
        have h3 : c + 1 ≤ RATE_LIMIT_CIRCUIT_BREAKER := by
          simp only [RATE_LIMIT_CIRCUIT_BREAKER]; omega
        simp [checkRateLimit, hreset, hb, hnb, h1, expectedRateResult, h2, h3, hmin, hd]
        exact h120
      · have h1 : ¬ RATE_LIMIT_MAX_REQUESTS < c + 1 := by
          simp only [RATE_LIMIT_MAX_REQUESTS]; omega
        have h2 : c + 1 ≤ RATE_LIMIT_MAX_REQUESTS := by
          simp only [RATE_LIMIT_MAX_REQUESTS]; omega
        simp [checkRateLimit, hreset, hb, hnb, h1, expectedRateResult, h2, hmin, hd]
        exact h120

lemma runRateChecks_spec (ts : List Nat) (t0 : Nat) : ∀ (c : Nat), c ≤ 121 →
    (∀ t ∈ ts, t - t0 ≤ RATE_LIMIT_WINDOW_MS) →
    (runRateChecks (some ⟨c, t0, decide (c = 121)⟩) ts).1
        = (List.range ts.length).map (fun i => expectedRateResult (c + i + 1)) ∧
    ∃ c', c' ≤ 121 ∧
      (runRateChecks (some ⟨c, t0, decide (c = 121)⟩) ts).2
        = some ⟨c', t0, decide (c' = 121)⟩ := by
  induction ts with
  | nil =>
    intro c hc _
    exact ⟨rfl, c, hc, rfl⟩
  | cons t ts ih =>
    intro c hc hw
    have hstep := checkRateLimit_within c t0 t hc (hw t (by simp))
    have hc' : min (c + 1) 121 ≤ 121 := by omega
    have hih := ih (min (c + 1) 121) hc' (fun x hx => hw x (by simp [hx]))
    constructor
    · simp only [runRateChecks, hstep]
      rw [hih.1]
      simp only [List.length_cons, List.range_succ_eq_map, List.map_cons, List.map_map]
      congr 1
      apply List.map_congr_left
      intro i _
      simp only [Function.comp_apply]
      by_cases hcc : c + 1 ≤ 121
      · rw [min_eq_left hcc]
        congr 1
        omega
      · have hc121 : c = 121 := by omega
        subst hc121
        rw [min_eq_right (by omega)]
        rw [expectedRateResult_high _ (by simp only [RATE_LIMIT_CIRCUIT_BREAKER]; omega),
            expectedRateResult_high _ (by simp only [RATE_LIMIT_CIRCUIT_BREAKER]; omega)]
    · obtain ⟨c', hc'le, heq⟩ := hih.2
      refine ⟨c', hc'le, ?_⟩
      simp only [runRateChecks, hstep]
      exact heq

lemma expectedRateResult_allowed (n : Nat) (h : n ≤ RATE_LIMIT_MAX_REQUESTS) :
    expectedRateResult n = .allowed := by
  simp only [expectedRateResult]
  rw [if_pos h]

lemma expectedRateResult_soft (n : Nat) (h1 : RATE_LIMIT_MAX_REQUESTS < n)
    (h2 : n ≤ RATE_LIMIT_CIRCUIT_BREAKER) :
    expectedRateResult n = .rate_limit := by
  simp only [expectedRateResult]
  rw [if_neg (by omega), if_pos h2]

lemma checkRateLimit_first (t0 : Nat) :
    checkRateLimit t0 none = (.allowed, ⟨1, t0, decide (1 = 121)⟩) := by
  simp [checkRateLimit, RATE_LIMIT_WINDOW_MS, RATE_LIMIT_MAX_REQUESTS,
    RATE_LIMIT_CIRCUIT_BREAKER]

/-- C5: for any 130 consecutive admission checks from one address whose
timestamps all lie within the 60-second window opened by the first check,
checks 1-60 are allowed, checks 61-120 are rejected with reason
`rate_limit`, and checks 121-130 are rejected with reason `circuit_breaker`;
a further check made after the window has expired resets the window and is
allowed.  (Indices below are 0-based: `i < 60` is checks 1-60, and so on.) -/
theorem rateLimitScenario (t0 : Nat) (rest : List Nat) (extra : Nat)
    (hlen : rest.length = 129)
    (hwin : ∀ t ∈ rest, t - t0 ≤ RATE_LIMIT_WINDOW_MS)
    (hextra : RATE_LIMIT_WINDOW_MS < extra - t0) :
    (∀ i, i < 60 →
      (runRateChecks none (t0 :: rest)).1.get? i = some .allowed) ∧
    (∀ i, 60 ≤ i → i < 120 →
      (runRateChecks none (t0 :: rest)).1.get? i = some .rate_limit) ∧
    (∀ i, 120 ≤ i → i < 130 →
      (runRateChecks none (t0 :: rest)).1.get? i = some .circuit_breaker) ∧
    (checkRateLimit extra (runRateChecks none (t0 :: rest)).2).1 = .allowed := by
  have hspec := runRateChecks_spec rest t0 1 (by omega) hwin
  have hfirst := checkRateLimit_first t0
  have hres : (runRateChecks none (t0 :: rest)).1
      = .allowed :: (List.range rest.length).map (fun i => expectedRateResult (1 + i + 1)) := by
    simp only [runRateChecks, hfirst]
    rw [hspec.1]
  have hget : ∀ i, i < 130 →
      (runRateChecks none (t0 :: rest)).1.get? i = some (expectedRateResult (i + 1)) := by
    intro i hi
    rw [hres]
    match i with
    | 0 =>
      simp only [List.get?_cons_zero]
      rw [expectedRateResult_allowed 1 (by simp [RATE_LIMIT_MAX_REQUESTS])]
    | (j + 1) =>
      simp only [List.get?_cons_succ, List.get?_map]
      rw [List.get?_range (by omega : j < rest.length)]
      simp only [Option.map_some']
      have harith : 1 + j + 1 = j + 1 + 1 := by omega
      rw [harith]
  refine ⟨?_, ?_, ?_, ?_⟩
  · intro i hi
    rw [hget i (by omega),
      expectedRateResult_allowed (i + 1) (by simp only [RATE_LIMIT_MAX_REQUESTS]; omega)]
  · intro i h1 h2
    rw [hget i (by omega),
      expectedRateResult_soft (i + 1) (by simp only [RATE_LIMIT_MAX_REQUESTS]; omega)
        (by simp only [RATE_LIMIT_CIRCUIT_BREAKER]; omega)]
  · intro i h1 h2
    rw [hget i (by omega),
      expectedRateResult_high (i + 1) (by simp only [RATE_LIMIT_CIRCUIT_BREAKER]; omega)]
  · obtain ⟨c', hc'le, heq⟩ := hspec.2
    have hsnd : (runRateChecks none (t0 :: rest)).2 = some ⟨c', t0, decide (c' = 121)⟩ := by
      simp only [runRateChecks, hfirst]
      exact heq
    rw [hsnd]
    simp [checkRateLimit, hextra, RATE_LIMIT_MAX_REQUESTS, RATE_LIMIT_CIRCUIT_BREAKER]

theorem rateLimitScenario_witness :
    ((List.replicate 129 (0 : Nat)).length = 129 ∧
     (∀ t ∈ List.replicate 129 (0 : Nat), t - 0 ≤ RATE_LIMIT_WINDOW_MS) ∧
     RATE_LIMIT_WINDOW_MS < 60001 - 0) ∧
    ((∀ i, i < 60 →
      (runRateChecks none (0 :: List.replicate 129 (0 : Nat))).1.get? i = some .allowed) ∧
    (∀ i, 60 ≤ i → i < 120 →
      (runRateChecks none (0 :: List.replicate 129 (0 : Nat))).1.get? i = some .rate_limit) ∧
    (∀ i, 120 ≤ i → i < 130 →
      (runRateChecks none (0 :: List.replicate 129 (0 : Nat))).1.get? i = some .circuit_breaker) ∧
    (checkRateLimit 60001 (runRateChecks none (0 :: List.replicate 129 (0 : Nat))).2).1
      = .allowed) :=
  ⟨⟨by simp, by simp [RATE_LIMIT_WINDOW_MS], by decide⟩,
   rateLimitScenario 0 (List.replicate 129 0) 60001 (by simp)
     (by simp [RATE_LIMIT_WINDOW_MS]) (by decide)⟩


end VoiceAgent
